import Mathlib

/-!
Verification of the Yle Areena Kodi add-on's link-list building logic
(`resources/lib/areena.py` and `src/media_api.py`).

External collaborators that the Python code calls but that are outside the
verified module (`download_playlist`, `parse_playlist_seasons`,
`parse_finnish_date`, `duration_from_search_result`, the HTTP layer) are
abstracted as explicit parameters: each function under verification receives
the data those collaborators would return. Python dictionaries read with
`.get`/`getattr` and optional JSON fields are modelled with `Option`;
datetimes are modelled as opaque `Nat` values; the process-wide `_cache`
dict is modelled as an association list threaded through the result mapper.
-/

namespace Areena

/-- `DEFAULT_PAGE_SIZE = 30` from `areena.py`. -/
def DEFAULT_PAGE_SIZE : Nat := 30

/-- The `StreamLink` dataclass after `__post_init__` ran (its `image_id` /
`image_version` InitVars are consumed by the smart constructor below). -/
structure StreamLink where
  homepage : String
  title : String
  description : Option String
  duration_seconds : Option Nat
  published : Option Nat
  is_folder : Bool
  thumbnail : Option String
  fanart : Option String
  deriving DecidableEq, Repr

/-- The `AreenaLink` hierarchy: `StreamLink`, `SearchNavigationLink`,
`SeriesNavigationLink`. -/
inductive AreenaLink where
  | stream (s : StreamLink)
  | searchNav (keyword : String) (offset : Nat) (page_size : Nat)
  | seriesNav (season_playlist_url : String) (season_number : Nat)
      (offset : Nat) (page_size : Nat) (is_next_page : Bool)
  deriving DecidableEq, Repr

/-- `_thumbnail_url(image_id, version)` from `areena.py`: the `version or
fallback` truthiness test treats the empty string like `None`. -/
def thumbnailUrl (image_id : String) (version : Option String) : String :=
  let v := match version with
    | some s => if s = "" then "1624522786" else s
    | none => "1624522786"
  "https://images.cdn.yle.fi/image/upload/w_320,dpr_1.0,fl_lossy,f_auto," ++
    "q_auto,d_yle-elava-arkisto.jpg/v" ++ v ++ "/" ++ image_id ++ ".jpg"

/-- Constructing a `StreamLink`, including `__post_init__`: an empty title is
replaced by the placeholder, and a thumbnail is derived from `image_id` when
no thumbnail was given. -/
def mkStreamLink (homepage title : String) (description : Option String)
    (duration_seconds : Option Nat) (published : Option Nat)
    (image_id : Option String) (image_version : Option String)
    (is_folder : Bool) (thumbnail : Option String) (fanart : Option String) :
    StreamLink :=
  let t := if title = "" then "???" else title
  let th := match image_id, thumbnail with
    | some iid, none => some (thumbnailUrl iid image_version)
    | _, th0 => th0
  { homepage := homepage, title := t, description := description,
    duration_seconds := duration_seconds, published := published,
    is_folder := is_folder, thumbnail := th, fanart := fanart }

/-- One episode record as returned by the external `download_playlist`
collaborator (the fields `season_playlist` reads from it). -/
structure Episode where
  homepage : String
  title : String
  description : Option String
  duration_seconds : Option Nat
  published : Option Nat
  image_id : Option String
  image_version : Option String
  deriving DecidableEq, Repr

/-- The `meta` dict returned by `download_playlist`; `season_playlist` reads
`limit` / `offset` / `count` from it with `.get` defaults. -/
structure PageMeta where
  limit : Option Nat
  offset : Option Nat
  count : Option Nat
  deriving DecidableEq, Repr

/-- A `download_playlist` oracle: given season url, offset and page size it
returns the page of episodes and the `meta` dict. -/
abbrev DownloadPlaylist := String → Nat → Nat → List Episode × PageMeta

/-- The `StreamLink` built for one episode inside `season_playlist`. -/
def episodeLink (ep : Episode) : AreenaLink :=
  AreenaLink.stream (mkStreamLink ep.homepage ep.title ep.description
    ep.duration_seconds ep.published ep.image_id ep.image_version
    false none none)

/-- `season_playlist(season_url, offset, page_size)` from `areena.py`,
with `download_playlist` passed in as `dl`. -/
def season_playlist (dl : DownloadPlaylist) (season_url : String)
    (offset page_size : Nat) : List AreenaLink :=
  let pm := dl season_url offset page_size
  let links := pm.1.map episodeLink
  let limit := pm.2.limit.getD DEFAULT_PAGE_SIZE
  let off := pm.2.offset.getD 0
  let count := pm.2.count.getD 0
  let next_offset := off + limit
  if next_offset < count then
    links ++ [AreenaLink.seriesNav season_url 0 next_offset limit true]
  else
    links

/-- `playlist(series_id, offset, page_size)` from `areena.py`.  The result of
`parse_playlist_seasons(series_id).season_playlist_urls()` is passed in as
`seasons` (`none` models a failed parse, the pairs are the `(i, url)` tuples). -/
def playlist (dl : DownloadPlaylist)
    (seasons : Option (List (Nat × String))) (offset page_size : Nat) :
    List AreenaLink :=
  match seasons with
  | none => []
  | some season_urls =>
    match season_urls with
    | [iu] => season_playlist dl iu.2 offset page_size
    | urls => urls.map (fun iu =>
        AreenaLink.seriesNav iu.2 iu.1 0 DEFAULT_PAGE_SIZE false)

end Areena

namespace Areena

/-- Fixture episode used by concrete witnesses below. -/
def ep0 : Episode :=
  { homepage := "https://areena.yle.fi/1-1", title := "Ep 1",
    description := some "d", duration_seconds := some 60,
    published := some 100, image_id := none, image_version := none }

/-- Witness oracle: every page reports `offset`/`limit` echoing the request
and a total count of 5. -/
def dlw : DownloadPlaylist := fun _ o p => ([ep0], ⟨some p, some o, some 5⟩)

/-- Witness oracle: empty pages whose meta reports offset 0, limit 30,
count 0 (no further results anywhere). -/
def dl0 : DownloadPlaylist := fun _ _ _ => ([], ⟨some 30, some 0, some 0⟩)

/-- Witness oracle: empty pages whose meta reports offset 0, limit 30,
count 100 (more results remain). -/
def dl1 : DownloadPlaylist := fun _ _ _ => ([], ⟨some 30, some 0, some 100⟩)

/-- C1: when the page meta echoes the requested `offset` and `limit` and
reports total `count`, `season_playlist` returns the mapped episode links
followed by exactly one trailing next-page `SeriesNavigationLink` iff
`offset + limit < count`, and nothing extra otherwise. -/
theorem season_playlist_next_page_iff (dl : DownloadPlaylist) (url : String)
    (off ps c : Nat)
    (hoff : (dl url off ps).2.offset = some off)
    (hlim : (dl url off ps).2.limit = some ps)
    (hcnt : (dl url off ps).2.count = some c) :
    season_playlist dl url off ps =
      (dl url off ps).1.map episodeLink ++
        (if off + ps < c then
          [AreenaLink.seriesNav url 0 (off + ps) ps true]
         else []) := by
  simp only [season_playlist, hoff, hlim, hcnt, Option.getD_some]
  split <;> simp

theorem season_playlist_next_page_iff_witness :
    season_playlist dlw "u" 0 30 =
      (dlw "u" 0 30).1.map episodeLink ++
        (if 0 + 30 < 5 then
          [AreenaLink.seriesNav "u" 0 (0 + 30) 30 true]
         else []) :=
  season_playlist_next_page_iff dlw "u" 0 30 5 rfl rfl rfl

/-- C8: for a series resolving to exactly one season, `playlist` returns
exactly what `season_playlist` returns on that season's url with the same
offset and page size. -/
theorem playlist_single_season (dl : DownloadPlaylist) (i : Nat)
    (url : String) (off ps : Nat) :
    playlist dl (some [(i, url)]) off ps = season_playlist dl url off ps :=
  rfl

/-- C9: for a series resolving to more than one season, `playlist` returns
one `SeriesNavigationLink` per season, in listing order, each with offset 0,
the default page size and `is_next_page = false`, ignoring the `offset` and
`page_size` arguments. -/
theorem playlist_multi_season (dl : DownloadPlaylist)
    (urls : List (Nat × String)) (off ps : Nat) (h : 1 < urls.length) :
    playlist dl (some urls) off ps =
      urls.map (fun iu =>
        AreenaLink.seriesNav iu.2 iu.1 0 DEFAULT_PAGE_SIZE false) ∧
    (playlist dl (some urls) off ps).length = urls.length := by
  match urls, h with
  | a :: b :: t, _ =>
    refine ⟨rfl, ?_⟩
    simp [playlist]

theorem playlist_multi_season_witness :
    playlist dl0 (some [(1, "s1"), (2, "s2")]) 0 30 =
      [(1, "s1"), (2, "s2")].map (fun iu =>
        AreenaLink.seriesNav iu.2 iu.1 0 DEFAULT_PAGE_SIZE false) ∧
    (playlist dl0 (some [(1, "s1"), (2, "s2")]) 0 30).length =
      [(1, "s1"), (2, "s2")].length :=
  playlist_multi_season dl0 [(1, "s1"), (2, "s2")] 0 30 (by decide)

end Areena

namespace Areena

/-- One transmission record of a search item (`getattr(x, 'broadcastStatus',
None)`). -/
structure Transmission where
  broadcastStatus : Option String
  deriving DecidableEq, Repr

/-- The `pointer` sub-object of a search item (`uri` and `type`). -/
structure Pointer where
  uri : Option String
  type : Option String
  deriving DecidableEq, Repr

/-- The localized `title` sub-object; `_parse_search_results` only reads its
`fi` field. -/
structure TitleObj where
  fi : Option String
  deriving DecidableEq, Repr

/-- The `image` sub-object (`id` and `version`). -/
structure ImageObj where
  id : Option String
  version : Option String
  deriving DecidableEq, Repr

/-- A raw search item, holding exactly the attributes
`_parse_search_results` reads via `getattr`.  `durationFallback` models the
value of `duration_from_search_result(item.model_dump())`, the external
extractor consulted when the `duration` attribute is `None`. -/
structure Item where
  type : Option String
  pointer : Option Pointer
  transmissions : List Transmission
  title : Option TitleObj
  image : Option ImageObj
  duration : Option Nat
  durationFallback : Option Nat
  description : Option String
  id : Option String
  deriving DecidableEq, Repr

/-- `getattr(getattr(item, 'pointer', None), 'uri', None)`. -/
def uriOf (item : Item) : Option String := item.pointer.bind Pointer.uri

/-- `getattr(getattr(item, 'pointer', None), 'type', None)`. -/
def pointerType (item : Item) : Option String := item.pointer.bind Pointer.type

/-- `is_upcoming = transmissions and all(x.broadcastStatus == 'upcoming' for
x in transmissions)`: true only for a non-empty transmission list whose
entries are all upcoming. -/
def isUpcoming (item : Item) : Bool :=
  !item.transmissions.isEmpty &&
    item.transmissions.all (fun t => t.broadcastStatus == some "upcoming")

/-- The guard `item.type == 'card' and uri and not is_upcoming`. -/
def isShownCard (item : Item) : Bool :=
  item.type == some "card" && (uriOf item).getD "" != "" && !isUpcoming item

/-- Whether an item reaches the `pointer_type in ['program', 'clip']`
branch. -/
def isMappableProgClip (item : Item) : Bool :=
  isShownCard item &&
    (pointerType item == some "program" || pointerType item == some "clip")

/-- The date parser `parse_finnish_date` from the external extractor module,
abstracted: it maps a description string to an (opaque) parsed date. -/
abbrev DateParse := String → Option Nat

/-- The `StreamLink` built in the program/clip branch of
`_parse_search_results` (title default, duration fallback, the
date-vs-subtitle description heuristic, `description=title`). -/
def programClipLink (pfd : DateParse) (item : Item) (u : String) : StreamLink :=
  let title0 := (item.title.bind TitleObj.fi).getD ""
  let image_id := item.image.bind ImageObj.id
  let image_version := item.image.bind ImageObj.version
  let duration := match item.duration with
    | some d => some d
    | none => item.durationFallback
  let tp : String × Option Nat := match item.description with
    | some d =>
      if d ≠ "" then
        match pfd d with
        | some p => (title0, some p)
        | none =>
          if d.length < 100 then (d ++ ": " ++ title0, none)
          else (title0, none)
      else (title0, none)
    | none => (title0, none)
  mkStreamLink u tp.1 (some tp.1) duration tp.2 image_id image_version
    false none none

/-- The `StreamLink` built in the series branch of `_parse_search_results`
(`is_folder=True`, `description=title`). -/
def seriesFolderLink (item : Item) (u : String) : StreamLink :=
  let title := (item.title.bind TitleObj.fi).getD ""
  mkStreamLink u title (some title) none none (item.image.bind ImageObj.id)
    (item.image.bind ImageObj.version) true none none

/-- The link `_parse_search_results` appends for one raw item: `none` for
skipped items (non-card, missing uri, all-upcoming), for the ignored
"package" pointer type, and for unknown pointer types (both only logged). -/
def itemLink (pfd : DateParse) (item : Item) : Option AreenaLink :=
  match uriOf item with
  | some u =>
    if isShownCard item then
      match pointerType item with
      | some pt =>
        if pt == "program" || pt == "clip" then
          some (AreenaLink.stream (programClipLink pfd item u))
        else if pt == "series" then
          some (AreenaLink.stream (seriesFolderLink item u))
        else none
      | none => none
    else none
  | none => none

/-- The process-wide `_cache` dict, observed through `List.lookup`. -/
abbrev Cache := List (String × Item)

/-- The `_cache[program_id] = item` insertion performed for one raw item:
only mapped program/clip items with a truthy (non-empty) id are stored. -/
def itemCacheEntry (item : Item) : Option (String × Item) :=
  if isMappableProgClip item then
    match item.id with
    | some pid => if pid ≠ "" then some (pid, item) else none
    | none => none
  else none

/-- The `for item in data` loop of `_parse_search_results`: builds the link
list in input order and threads the `_cache` dict. -/
def parseSearchItems (pfd : DateParse) :
    List Item → Cache → List AreenaLink × Cache
  | [], c => ([], c)
  | item :: rest, c =>
    let c1 := match itemCacheEntry item with
      | some e => e :: c
      | none => c
    let r := parseSearchItems pfd rest c1
    match itemLink pfd item with
    | some l => (l :: r.1, r.2)
    | none => r

/-- The `meta` object of a search response: the paging fields read via
`getattr` with defaults, and the keyword buried under
`analytics.onReceive.comscore['yle_search_phrase']`. -/
structure SearchMeta where
  offset : Option Nat
  limit : Option Nat
  count : Option Nat
  yle_search_phrase : Option String
  deriving DecidableEq, Repr

/-- A search response: its `data` item list and optional `meta`. -/
structure SearchResponse where
  data : List Item
  meta : Option SearchMeta
  deriving DecidableEq, Repr

/-- `_parse_search_results(search_response, pagination_links)` including the
`_cache` effect: returns the links and the updated cache. -/
def parseSearchResultsCache (pfd : DateParse) (resp : SearchResponse)
    (pagination_links : Bool) (c : Cache) : List AreenaLink × Cache :=
  let rc := parseSearchItems pfd resp.data c
  match pagination_links, resp.meta with
  | true, some m =>
    let keyword := m.yle_search_phrase.getD ""
    let offset := m.offset.getD 0
    let limit := m.limit.getD DEFAULT_PAGE_SIZE
    let count := m.count.getD 0
    let next_offset := offset + limit
    if next_offset < count then
      (rc.1 ++ [AreenaLink.searchNav keyword next_offset limit], rc.2)
    else rc
  | _, _ => rc

/-- `_parse_search_results`, links only. -/
def parseSearchResults (pfd : DateParse) (resp : SearchResponse)
    (pagination_links : Bool) : List AreenaLink :=
  (parseSearchResultsCache pfd resp pagination_links []).1

/-- An HTTP response as `get_live_broadcasts` sees it: a status code and the
parsed JSON body. -/
structure HttpResp where
  status_code : Nat
  body : SearchResponse
  deriving DecidableEq, Repr

/-- `get_live_broadcasts()` from `areena.py`, with the two HTTP responses
(`r1`: the "only in Areena" query, `r2`: the sport query) passed in. -/
def get_live_broadcasts (pfd : DateParse) (r1 r2 : HttpResp) :
    List AreenaLink :=
  let l1 := if 200 ≤ r1.status_code ∧ r1.status_code < 300 then
      parseSearchResults pfd r1.body false
    else []
  let l2 := if 200 ≤ r2.status_code ∧ r2.status_code < 300 then
      parseSearchResults pfd r2.body false
    else []
  l1 ++ l2

end Areena

namespace MediaAPI

/-- A Python value as produced by `r.json()`: JSON null (Python `None`),
booleans, numbers, strings, lists and dicts. -/
inductive JVal where
  | null
  | bool (b : Bool)
  | num (n : Int)
  | str (s : String)
  | arr (items : List JVal)
  | obj (fields : List (String × JVal))

/-- Python truthiness (`bool(v)`). -/
def JVal.truthy : JVal → Bool
  | .null => false
  | .bool b => b
  | .num n => n != 0
  | .str s => s != ""
  | .arr items => !items.isEmpty
  | .obj fields => !fields.isEmpty

/-- The exceptions that can escape `get_playout` to its caller.  They are
raised AFTER the `try/except` block of `media_api.py` (lines 72-79), which
protects only the HTTP get and the status check. -/
inductive PyError where
  | jsonDecodeError
  | attributeError
  | typeError
  | validationError
  deriving DecidableEq, Repr

/-- The outcome of the code inside the `try/except` block: `failure` is any
exception raised there (connection error, timeout, `raise_for_status` or
`HTTPError` on a non-2xx status) — caught and turned into `None`.
`success body` is a response that survived the block; `body = none` models
a body that is not valid JSON, so the subsequent unprotected `r.json()`
raises `JSONDecodeError`, and `some v` carries the parsed value. -/
inductive HttpResult where
  | failure
  | success (body : Option JVal)

/-- The `Playout` pydantic model. -/
structure Playout where
  url : String
  drm : Bool
  protocol : String
  language : Option String
  deriving DecidableEq, Repr

/-- Contiguous-substring test on character lists, for Python
`needle in haystack` on strings. -/
def containsSub (needle : List Char) : List Char → Bool
  | [] => needle.isEmpty
  | c :: rest => List.isPrefixOf needle (c :: rest) || containsSub needle rest

/-- Python `needle in v` for a string needle: key membership for dicts,
element equality for lists (a string compares equal only to an equal
string), substring test for strings; a `TypeError` for any non-container
(`None` never reaches this test — the `not info` disjunct short-circuits). -/
def pyIn (needle : String) : JVal → Except PyError Bool
  | .obj fields => .ok (fields.lookup needle).isSome
  | .arr items => .ok (items.any fun x => match x with
      | .str s => s == needle
      | _ => false)
  | .str s => .ok (containsSub needle.data s.data)
  | _ => .error .typeError

/-- `data = r.json().get("data")` followed by
`info = (data[0] if data else None) if isinstance(data, list) else data`:
`none` is Python `None` (missing key, or empty list). -/
def selectInfo (fields : List (String × JVal)) : Option JVal :=
  match fields.lookup "data" with
  | some (JVal.arr items) => items.head?
  | some v => some v
  | none => none

/-- Pydantic validation of `protocol=info.get("protocol", protocol)`: the
default is the `protocol` argument; a non-string value is rejected. -/
def playoutProtocol (protocol : String) (ifields : List (String × JVal)) :
    Except PyError String :=
  match ifields.lookup "protocol" with
  | none => .ok protocol
  | some (JVal.str p) => .ok p
  | some _ => .error .validationError

/-- Pydantic validation of `language=info.get("language")`
(`Optional[str]`, default `None`). -/
def playoutLanguage (ifields : List (String × JVal)) :
    Except PyError (Option String) :=
  match ifields.lookup "language" with
  | none => .ok none
  | some JVal.null => .ok none
  | some (JVal.str s) => .ok (some s)
  | some _ => .error .validationError

/-- The final `Playout(...)` construction on a dict `info`: pydantic
validates `url` and the other fields (`drm` passes through `bool()` first
and never fails). -/
def mkPlayoutModel (protocol : String) (ifields : List (String × JVal)) :
    Except PyError Playout :=
  match ifields.lookup "url" with
  | some (JVal.str u) =>
    match playoutProtocol protocol ifields, playoutLanguage ifields with
    | .ok p, .ok lang =>
      .ok { url := u, drm := ((ifields.lookup "drm").getD JVal.null).truthy,
            protocol := p, language := lang }
    | .error e, _ => .error e
    | _, .error e => .error e
  | _ => .error .validationError

/-- `MediaAPI.get_playout(item_id, protocol)` from `media_api.py`.  The
`try/except` outcome is passed in as `resp`; everything after the block —
`r.json()`, `.get("data")` on the parsed root, the
`not info or "url" not in info` test and the `Playout` construction — runs
unprotected, so the exceptions those lines raise surface as
`Except.error`. -/
def get_playout (protocol : String) (resp : HttpResult) :
    Except PyError (Option Playout) :=
  match resp with
  | .failure => .ok none
  | .success none => .error .jsonDecodeError
  | .success (some (JVal.obj fields)) =>
    match selectInfo fields with
    | none => .ok none
    | some iv =>
      if iv.truthy then
        match pyIn "url" iv with
        | .error e => .error e
        | .ok false => .ok none
        | .ok true =>
          match iv with
          | JVal.obj ifields => (mkPlayoutModel protocol ifields).map some
          | _ => .error .attributeError
      else .ok none
  | .success (some _) => .error .attributeError

/-- The stream URL a response carries: the string under `"url"` of the
selected info dict, when there is one. -/
def streamUrl (resp : HttpResult) : Option String :=
  match resp with
  | HttpResult.success (some (JVal.obj fields)) =>
    match selectInfo fields with
    | some (JVal.obj ifields) =>
      match ifields.lookup "url" with
      | some (JVal.str u) => some u
      | _ => none
    | _ => none
  | _ => none

/-- C4 counterexample: `get_playout` CAN raise to its caller, because the
`try/except` ends before the body handling: a 2xx response whose body is
not valid JSON raises `JSONDecodeError` at `r.json()`, a top-level JSON
array raises `AttributeError` at `.get("data")`, and a body `{"data": 5}`
raises `TypeError` at `"url" not in 5`; in particular the first of these
does not return `None`. -/
theorem get_playout_raises_counterexample :
    get_playout "HLS" (HttpResult.success none) =
      Except.error PyError.jsonDecodeError ∧
    get_playout "HLS" (HttpResult.success (some (JVal.arr []))) =
      Except.error PyError.attributeError ∧
    get_playout "HLS"
        (HttpResult.success (some (JVal.obj [("data", JVal.num 5)]))) =
      Except.error PyError.typeError ∧
    get_playout "HLS" (HttpResult.success none) ≠ Except.ok none := by
  refine ⟨rfl, rfl, rfl, ?_⟩
  intro hcontra
  exact Except.noConfusion hcontra

theorem mkPlayoutModel_url (protocol : String)
    (ifields : List (String × JVal)) (p : Playout)
    (h : mkPlayoutModel protocol ifields = Except.ok p) :
    ifields.lookup "url" = some (JVal.str p.url) := by
  unfold mkPlayoutModel at h
  cases hu : ifields.lookup "url" with
  | none =>
    rw [hu] at h
    exact Except.noConfusion h
  | some v =>
    cases v with
    | null => rw [hu] at h; exact Except.noConfusion h
    | bool b => rw [hu] at h; exact Except.noConfusion h
    | num n => rw [hu] at h; exact Except.noConfusion h
    | arr items => rw [hu] at h; exact Except.noConfusion h
    | obj fields2 => rw [hu] at h; exact Except.noConfusion h
    | str u =>
      simp only [hu] at h
      cases hp : playoutProtocol protocol ifields with
      | error e2 =>
        simp only [hp] at h
        exact Except.noConfusion h
      | ok pr =>
        cases hl2 : playoutLanguage ifields with
        | error e2 =>
          simp only [hp, hl2] at h
          exact Except.noConfusion h
        | ok lang =>
          simp only [hp, hl2] at h
          injection h with h4
          subst h4
          rfl

/-- C4 amended: any error inside the `try/except` (request failure, non-2xx
status) returns `None` rather than raising; whenever `get_playout` returns
normally, its result is `None` exactly when the response carries no stream
URL and otherwise a `Playout` whose `url` is that stream URL; but an
exception escaping to the caller is possible and arises only from the
unprotected body handling of a response that survived the `try` block. -/
theorem get_playout_null_or_raise (protocol : String) (resp : HttpResult) :
    get_playout protocol HttpResult.failure = Except.ok none ∧
    (∀ r, get_playout protocol resp = Except.ok r →
      r.map Playout.url = streamUrl resp) ∧
    (∀ e, get_playout protocol resp = Except.error e →
      ∃ body, resp = HttpResult.success body) := by
  refine ⟨rfl, ?_, ?_⟩
  · intro r h
    cases resp with
    | failure =>
      injection h with h2
      subst h2
      rfl
    | success body =>
      cases body with
      | none => exact Except.noConfusion h
      | some j =>
        cases j with
        | null => exact Except.noConfusion h
        | bool b => exact Except.noConfusion h
        | num n => exact Except.noConfusion h
        | str s => exact Except.noConfusion h
        | arr items => exact Except.noConfusion h
        | obj fields =>
          simp only [get_playout] at h
          cases hinfo : selectInfo fields with
          | none =>
            rw [hinfo] at h
            injection h with h2
            subst h2
            simp [streamUrl, hinfo]
          | some iv =>
            simp only [hinfo] at h
            by_cases htr : iv.truthy = true
            · rw [if_pos htr] at h
              cases hin : pyIn "url" iv with
              | error e =>
                rw [hin] at h
                exact Except.noConfusion h
              | ok b =>
                cases b with
                | false =>
                  rw [hin] at h
                  injection h with h2
                  subst h2
                  cases iv with
                  | obj ifields =>
                    simp only [pyIn] at hin
                    injection hin with hb
                    cases hu : ifields.lookup "url" with
                    | none => simp [streamUrl, hinfo, hu]
                    | some v => rw [hu] at hb; simp at hb
                  | null => simp [streamUrl, hinfo]
                  | bool b2 => simp [streamUrl, hinfo]
                  | num n => simp [streamUrl, hinfo]
                  | str s => simp [streamUrl, hinfo]
                  | arr items => simp [streamUrl, hinfo]
                | true =>
                  rw [hin] at h
                  cases iv with
                  | null => exact Except.noConfusion h
                  | bool b2 => exact Except.noConfusion h
                  | num n => exact Except.noConfusion h
                  | str s => exact Except.noConfusion h
                  | arr items => exact Except.noConfusion h
                  | obj ifields =>
                    have h3 : (mkPlayoutModel protocol ifields).map some =
                        Except.ok r := h
                    cases hmk : mkPlayoutModel protocol ifields with
                    | error e2 =>
                      rw [hmk] at h3
                      exact Except.noConfusion h3
                    | ok p =>
                      rw [hmk] at h3
                      injection h3 with h4
                      subst h4
                      have hu := mkPlayoutModel_url protocol ifields p hmk
                      simp [streamUrl, hinfo, hu]
            · rw [if_neg htr] at h
              injection h with h2
              subst h2
              cases iv with
              | obj ifields =>
                cases ifields with
                | nil => simp [streamUrl, hinfo]
                | cons e rest =>
                  exact absurd (by simp [JVal.truthy]) htr
              | null => simp [streamUrl, hinfo]
              | bool b2 => simp [streamUrl, hinfo]
              | num n => simp [streamUrl, hinfo]
              | str s => simp [streamUrl, hinfo]
              | arr items => simp [streamUrl, hinfo]
  · intro e h
    cases resp with
    | failure => exact Except.noConfusion h
    | success body => exact ⟨body, rfl⟩

/-- Witness response: a well-formed playouts body carrying one info dict
with a stream URL. -/
def respOk : HttpResult :=
  HttpResult.success (some (JVal.obj
    [("data", JVal.arr
      [JVal.obj [("url", JVal.str "https://example.com/manifest.m3u8")]])]))

theorem get_playout_null_or_raise_witness :
    Option.map Playout.url
        (some { url := "https://example.com/manifest.m3u8", drm := false,
                protocol := "HLS", language := none }) = streamUrl respOk :=
  (get_playout_null_or_raise "HLS" respOk).2.1
    (some { url := "https://example.com/manifest.m3u8", drm := false,
            protocol := "HLS", language := none }) rfl

end MediaAPI

namespace Areena

theorem itemLink_stream (pfd : DateParse) (item : Item) (l : AreenaLink)
    (h : itemLink pfd item = some l) : ∃ s, l = AreenaLink.stream s := by
  unfold itemLink at h
  repeat' split at h
  all_goals (try (injection h with h2; exact ⟨_, h2.symm⟩))
  all_goals exact Option.noConfusion h

theorem parseSearchItems_stream (pfd : DateParse) :
    ∀ (items : List Item) (c : Cache) (l : AreenaLink),
      l ∈ (parseSearchItems pfd items c).1 → ∃ s, l = AreenaLink.stream s := by
  intro items
  induction items with
  | nil => intro c l h; simp [parseSearchItems] at h
  | cons item rest ih =>
    intro c l h
    simp only [parseSearchItems] at h
    cases hl : itemLink pfd item with
    | none => rw [hl] at h; exact ih _ _ h
    | some l0 =>
      rw [hl] at h
      simp only [List.mem_cons] at h
      rcases h with h1 | h2
      · exact h1 ▸ itemLink_stream pfd item l0 hl
      · exact ih _ _ h2

theorem parseSearchResults_no_pagination (pfd : DateParse)
    (resp : SearchResponse) :
    parseSearchResults pfd resp false = (parseSearchItems pfd resp.data []).1 :=
  rfl

/-- C3: `get_live_broadcasts` concatenates the mapped "only in Areena"
results (first) and the mapped sport results (second) when both responses
are 2xx; an HTTP error status on either source drops exactly that source's
contribution; and no navigation link ever appears in the output. -/
theorem get_live_broadcasts_fault_tolerant (pfd : DateParse)
    (r1 r2 : HttpResp) :
    ((200 ≤ r1.status_code ∧ r1.status_code < 300) →
      (200 ≤ r2.status_code ∧ r2.status_code < 300) →
      get_live_broadcasts pfd r1 r2 =
        parseSearchResults pfd r1.body false ++
          parseSearchResults pfd r2.body false) ∧
    (400 ≤ r1.status_code →
      (200 ≤ r2.status_code ∧ r2.status_code < 300) →
      get_live_broadcasts pfd r1 r2 = parseSearchResults pfd r2.body false) ∧
    (400 ≤ r2.status_code →
      (200 ≤ r1.status_code ∧ r1.status_code < 300) →
      get_live_broadcasts pfd r1 r2 = parseSearchResults pfd r1.body false) ∧
    (∀ l ∈ get_live_broadcasts pfd r1 r2, ∃ s, l = AreenaLink.stream s) := by
  refine ⟨?_, ?_, ?_, ?_⟩
  · intro h1 h2
    simp only [get_live_broadcasts, if_pos h1, if_pos h2]
  · intro h1 h2
    have hn1 : ¬(200 ≤ r1.status_code ∧ r1.status_code < 300) := by omega
    simp only [get_live_broadcasts, if_neg hn1, if_pos h2, List.nil_append]
  · intro h2 h1
    have hn2 : ¬(200 ≤ r2.status_code ∧ r2.status_code < 300) := by omega
    simp only [get_live_broadcasts, if_neg hn2, if_pos h1, List.append_nil]
  · intro l hl
    simp only [get_live_broadcasts, List.mem_append] at hl
    rcases hl with hl | hl
    all_goals
      split at hl
      · rw [parseSearchResults_no_pagination] at hl
        exact parseSearchItems_stream pfd _ _ _ hl
      · simp at hl

end Areena

namespace Areena

/-- The "more results remain" test `offset + limit < count` on a playlist
page meta, with the `.get` defaults of `season_playlist`. -/
def nextPageGuard (m : PageMeta) : Prop :=
  m.offset.getD 0 + m.limit.getD DEFAULT_PAGE_SIZE < m.count.getD 0

/-- The "more results remain" test `offset + limit < count` on a search
response meta, with the `getattr` defaults of `_parse_search_results`. -/
def searchNextGuard (m : SearchMeta) : Prop :=
  m.offset.getD 0 + m.limit.getD DEFAULT_PAGE_SIZE < m.count.getD 0

theorem season_playlist_nav_guard (dl : DownloadPlaylist) (url : String)
    (off ps : Nat) (u : String) (i o p : Nat)
    (h : AreenaLink.seriesNav u i o p true ∈ season_playlist dl url off ps) :
    nextPageGuard (dl url off ps).2 := by
  simp only [season_playlist] at h
  split at h
  case isTrue hg => exact hg
  case isFalse hg =>
    rcases List.mem_map.mp h with ⟨ep, _, heq⟩
    simp [episodeLink] at heq

theorem playlist_nav_guard (dl : DownloadPlaylist)
    (seasons : Option (List (Nat × String))) (off ps : Nat)
    (u : String) (i o p : Nat)
    (h : AreenaLink.seriesNav u i o p true ∈ playlist dl seasons off ps) :
    ∃ idx surl, seasons = some [(idx, surl)] ∧
      nextPageGuard (dl surl off ps).2 := by
  cases seasons with
  | none => simp [playlist] at h
  | some urls =>
    match urls with
    | [] => simp [playlist] at h
    | [iu] =>
      exact ⟨iu.1, iu.2, rfl, season_playlist_nav_guard dl iu.2 off ps u i o p h⟩
    | a :: b :: t =>
      simp only [playlist] at h
      rcases List.mem_map.mp h with ⟨x, _, heq⟩
      exact absurd (congrArg (fun l => match l with
        | AreenaLink.seriesNav _ _ _ _ b => b
        | _ => true) heq) (by simp)

theorem parseSearchResultsCache_fst (pfd : DateParse) (resp : SearchResponse)
    (pag : Bool) (c : Cache) :
    (parseSearchResultsCache pfd resp pag c).1 =
      (parseSearchItems pfd resp.data c).1 ∨
    ∃ m, resp.meta = some m ∧ searchNextGuard m ∧
      (parseSearchResultsCache pfd resp pag c).1 =
        (parseSearchItems pfd resp.data c).1 ++
          [AreenaLink.searchNav (m.yle_search_phrase.getD "")
            (m.offset.getD 0 + m.limit.getD DEFAULT_PAGE_SIZE)
            (m.limit.getD DEFAULT_PAGE_SIZE)] := by
  unfold parseSearchResultsCache
  cases pag with
  | false => exact Or.inl rfl
  | true =>
    cases hm : resp.meta with
    | none => exact Or.inl rfl
    | some m =>
      by_cases hg : searchNextGuard m
      · right
        refine ⟨m, rfl, hg, ?_⟩
        simp only [searchNextGuard] at hg
        simp [hg]
      · left
        have hg2 : ¬(m.offset.getD 0 + m.limit.getD DEFAULT_PAGE_SIZE <
            m.count.getD 0) := hg
        simp [hg2]

theorem parse_search_nav_guard (pfd : DateParse) (resp : SearchResponse)
    (pag : Bool) (kw : String) (o p : Nat)
    (h : AreenaLink.searchNav kw o p ∈ parseSearchResults pfd resp pag) :
    ∃ m, resp.meta = some m ∧ searchNextGuard m := by
  unfold parseSearchResults at h
  rcases parseSearchResultsCache_fst pfd resp pag [] with heq | ⟨m, hm, hg, heq⟩
  · rw [heq] at h
    rcases parseSearchItems_stream pfd resp.data [] _ h with ⟨s, hs⟩
    exact absurd hs (by simp)
  · rw [heq] at h
    rcases List.mem_append.mp h with h2 | h2
    · rcases parseSearchItems_stream pfd resp.data [] _ h2 with ⟨s, hs⟩
      exact absurd hs (by simp)
    · exact ⟨m, hm, hg⟩

/-- C2 counterexample: for a series resolving to two seasons, `playlist`
emits `SeriesNavigationLink`s although every page meta the API would report
(oracle `dl0`) has `offset + limit >= count`, and the season listing itself
reports no count at all. -/
theorem nav_guard_counterexample :
    AreenaLink.seriesNav "s1" 1 0 30 false ∈
      playlist dl0 (some [(1, "s1"), (2, "s2")]) 0 30 ∧
    ¬ nextPageGuard (dl0 "s1" 0 30).2 ∧
    ¬ nextPageGuard (dl0 "s2" 0 30).2 := by
  refine ⟨by decide, ?_, ?_⟩ <;> simp [nextPageGuard, dl0, DEFAULT_PAGE_SIZE]

/-- C2 amended: every NEXT-PAGE navigation link (`is_next_page=true`
`SeriesNavigationLink` from `season_playlist`/`playlist`, and every
`SearchNavigationLink` from the result mapper) is emitted only when the
API-reported meta satisfies `offset + limit < count`; the season-picker
`SeriesNavigationLink`s of `playlist` (`is_next_page=false`) are exempt. -/
theorem nav_links_only_when_more :
    (∀ (dl : DownloadPlaylist) (url : String) (off ps : Nat)
        (u : String) (i o p : Nat),
      AreenaLink.seriesNav u i o p true ∈ season_playlist dl url off ps →
      nextPageGuard (dl url off ps).2) ∧
    (∀ (dl : DownloadPlaylist) (seasons : Option (List (Nat × String)))
        (off ps : Nat) (u : String) (i o p : Nat),
      AreenaLink.seriesNav u i o p true ∈ playlist dl seasons off ps →
      ∃ idx surl, seasons = some [(idx, surl)] ∧
        nextPageGuard (dl surl off ps).2) ∧
    (∀ (pfd : DateParse) (resp : SearchResponse) (pag : Bool)
        (kw : String) (o p : Nat),
      AreenaLink.searchNav kw o p ∈ parseSearchResults pfd resp pag →
      ∃ m, resp.meta = some m ∧ searchNextGuard m) :=
  ⟨season_playlist_nav_guard, playlist_nav_guard, parse_search_nav_guard⟩

theorem nav_links_only_when_more_witness :
    nextPageGuard (dl1 "u" 0 30).2 :=
  nav_links_only_when_more.1 dl1 "u" 0 30 "u" 0 30 30 (by decide)

end Areena

namespace Areena

/-- Fixture date parser that never recognises a date. -/
def pfdNone : DateParse := fun _ => none

/-- Fixture: a mappable program card. -/
def itemProg : Item :=
  { type := some "card",
    pointer := some { uri := some "https://areena.yle.fi/1-2", type := some "program" },
    transmissions := [], title := some { fi := some "Prog" }, image := none,
    duration := some 10, durationFallback := none, description := none,
    id := some "p1" }

/-- Fixture: a mappable series card. -/
def itemSer : Item :=
  { type := some "card",
    pointer := some { uri := some "https://areena.yle.fi/1-3", type := some "series" },
    transmissions := [], title := some { fi := some "Ser" }, image := none,
    duration := none, durationFallback := none, description := none,
    id := some "s1" }

/-- Fixture: a card of pointer type "package". -/
def itemPack : Item :=
  { type := some "card",
    pointer := some { uri := some "https://areena.yle.fi/1-4", type := some "package" },
    transmissions := [], title := some { fi := some "Pack" }, image := none,
    duration := none, durationFallback := none, description := none,
    id := some "k1" }

/-- Fixture: a card of an unknown pointer type. -/
def itemUnk : Item :=
  { type := some "card",
    pointer := some { uri := some "https://areena.yle.fi/1-5", type := some "live" },
    transmissions := [], title := some { fi := some "Unk" }, image := none,
    duration := none, durationFallback := none, description := none,
    id := some "u1" }

/-- Fixture: the "only in Areena" live response with a 500 status. -/
def resp500 : HttpResp := { status_code := 500, body := { data := [], meta := none } }

/-- Fixture: a sport live response with a 200 status and one program card. -/
def resp200 : HttpResp :=
  { status_code := 200, body := { data := [itemProg], meta := none } }

theorem get_live_broadcasts_fault_tolerant_witness :
    get_live_broadcasts pfdNone resp500 resp200 =
      parseSearchResults pfdNone resp200.body false :=
  (get_live_broadcasts_fault_tolerant pfdNone resp500 resp200).2.1
    (by decide) (by decide)

/-- C5: mapping a list of four shown cards with pointer types "program",
"series", "package" and an unknown type yields exactly the two links for the
program and the series, in input order; the series link is a folder. -/
theorem search_mapping_four_pointer_types (pfd : DateParse)
    (i1 i2 i3 i4 : Item) (u1 u2 u3 u4 pt4 : String)
    (h1 : uriOf i1 = some u1) (h1c : isShownCard i1 = true)
    (h1p : pointerType i1 = some "program")
    (h2 : uriOf i2 = some u2) (h2c : isShownCard i2 = true)
    (h2p : pointerType i2 = some "series")
    (h3 : uriOf i3 = some u3) (h3c : isShownCard i3 = true)
    (h3p : pointerType i3 = some "package")
    (h4 : uriOf i4 = some u4) (h4c : isShownCard i4 = true)
    (h4p : pointerType i4 = some pt4)
    (hp1 : pt4 ≠ "program") (hp2 : pt4 ≠ "clip")
    (hp3 : pt4 ≠ "series") (_hp4 : pt4 ≠ "package") :
    parseSearchResults pfd { data := [i1, i2, i3, i4], meta := none } true =
      [AreenaLink.stream (programClipLink pfd i1 u1),
       AreenaLink.stream (seriesFolderLink i2 u2)] ∧
    (seriesFolderLink i2 u2).is_folder = true := by
  refine ⟨?_, rfl⟩
  simp only [parseSearchResults, parseSearchResultsCache, parseSearchItems,
    itemLink, h1, h2, h3, h4, h1c, h2c, h3c, h4c, h1p, h2p, h3p, h4p,
    hp1, hp2, hp3, _hp4, if_true, Bool.or_eq_true, beq_iff_eq, if_false,
    String.reduceEq, or_self, or_false, false_or, ite_true, ite_false,
    if_neg, reduceCtorEq]

end Areena

namespace Areena

theorem search_mapping_four_pointer_types_witness :
    parseSearchResults pfdNone
        { data := [itemProg, itemSer, itemPack, itemUnk], meta := none } true =
      [AreenaLink.stream (programClipLink pfdNone itemProg "https://areena.yle.fi/1-2"),
       AreenaLink.stream (seriesFolderLink itemSer "https://areena.yle.fi/1-3")] ∧
    (seriesFolderLink itemSer "https://areena.yle.fi/1-3").is_folder = true :=
  search_mapping_four_pointer_types pfdNone itemProg itemSer itemPack itemUnk
    "https://areena.yle.fi/1-2" "https://areena.yle.fi/1-3"
    "https://areena.yle.fi/1-4" "https://areena.yle.fi/1-5" "live"
    rfl (by decide) rfl rfl (by decide) rfl rfl (by decide) rfl rfl
    (by decide) rfl (by decide) (by decide) (by decide) (by decide)

/-- Fixture: a program card with an EMPTY transmission list (the claim's
"all transmissions upcoming" holds vacuously). -/
def item6 : Item :=
  { type := some "card",
    pointer := some { uri := some "u6", type := some "program" },
    transmissions := [], title := none, image := none, duration := none,
    durationFallback := none, description := none, id := none }

/-- C6 counterexample: for an item whose transmission list is empty, every
transmission is (vacuously) marked upcoming, yet the mapper still emits a
link for it — the code additionally requires the list to be non-empty. -/
theorem upcoming_vacuous_counterexample :
    item6.transmissions.all
      (fun t => t.broadcastStatus == some "upcoming") = true ∧
    parseSearchResults pfdNone { data := [item6], meta := none } true ≠ [] := by
  refine ⟨rfl, by decide⟩

/-- C6 amended: an item with a NON-EMPTY transmission list all of whose
transmissions are marked "upcoming" contributes no link: the mapper's output
on `item :: rest` equals its output on `rest`, for any pointer type, meta
and pagination flag. -/
theorem upcoming_item_emits_no_link (pfd : DateParse) (item : Item)
    (rest : List Item) (m : Option SearchMeta) (pag : Bool)
    (hne : item.transmissions ≠ [])
    (hall : item.transmissions.all
      (fun t => t.broadcastStatus == some "upcoming") = true) :
    parseSearchResults pfd { data := item :: rest, meta := m } pag =
      parseSearchResults pfd { data := rest, meta := m } pag := by
  have hup : isUpcoming item = true := by
    simp [isUpcoming, hall, List.isEmpty_iff, hne]
  have hs : isShownCard item = false := by
    simp [isShownCard, hup]
  have hl : itemLink pfd item = none := by
    unfold itemLink
    cases hu : uriOf item <;> simp [hu, hs]
  have hc : itemCacheEntry item = none := by
    simp [itemCacheEntry, isMappableProgClip, hs]
  have haux : ∀ c : Cache,
      parseSearchItems pfd (item :: rest) c = parseSearchItems pfd rest c := by
    intro c
    simp only [parseSearchItems, hl, hc]
  unfold parseSearchResults parseSearchResultsCache
  simp only [haux]

/-- Fixture: like `item6` but with one genuinely upcoming transmission. -/
def item6u : Item :=
  { type := some "card",
    pointer := some { uri := some "u6", type := some "program" },
    transmissions := [{ broadcastStatus := some "upcoming" }],
    title := none, image := none, duration := none, durationFallback := none,
    description := none, id := none }

theorem upcoming_item_emits_no_link_witness :
    parseSearchResults pfdNone { data := [item6u], meta := none } true =
      parseSearchResults pfdNone { data := [], meta := none } true :=
  upcoming_item_emits_no_link pfdNone item6u [] none true (by decide) rfl

end Areena

namespace Areena

/-- Fixture date parser recognising exactly the Finnish date "12.3.2021". -/
def pfd7 : DateParse := fun s => if s = "12.3.2021" then some 20210312 else none

/-- Fixture: a program card with an empty title and a date-like
description. -/
def item7 : Item :=
  { type := some "card",
    pointer := some { uri := some "u7", type := some "program" },
    transmissions := [], title := none, image := none, duration := none,
    durationFallback := none, description := some "12.3.2021", id := none }

/-- C7 counterexample: for an item whose original title is empty and whose
description parses as a date, the resulting title is the placeholder "???",
not the (empty) original title — `__post_init__` replaces empty titles. -/
theorem date_title_placeholder_counterexample :
    (item7.title.bind TitleObj.fi).getD "" = "" ∧
    pfd7 "12.3.2021" = some 20210312 ∧
    parseSearchResults pfd7 { data := [item7], meta := none } true =
      [AreenaLink.stream
        { homepage := "u7", title := "???", description := some "",
          duration_seconds := none, published := some 20210312,
          is_folder := false, thumbnail := none, fanart := none }] ∧
    ("???" : String) ≠ "" := by
  refine ⟨rfl, by decide, by decide, by decide⟩

/-- C7 amended: for a mapped program/clip item with a non-empty description:
if the description parses as a date, `published` is the parsed date and the
title is the original title when that is non-empty (the "???" placeholder
when it is empty); if it does not parse and is shorter than 100 characters,
the title becomes description, ": ", original title. -/
theorem description_date_heuristic (pfd : DateParse) (item : Item)
    (u desc : String)
    (hcard : isShownCard item = true) (huri : uriOf item = some u)
    (hpt : pointerType item = some "program" ∨ pointerType item = some "clip")
    (hdesc : item.description = some desc) (hdne : desc ≠ "") :
    parseSearchResults pfd { data := [item], meta := none } true =
      [AreenaLink.stream (programClipLink pfd item u)] ∧
    (∀ d, pfd desc = some d →
      (programClipLink pfd item u).published = some d ∧
      (programClipLink pfd item u).title =
        (if (item.title.bind TitleObj.fi).getD "" = "" then "???"
         else (item.title.bind TitleObj.fi).getD "")) ∧
    (pfd desc = none → desc.length < 100 →
      (programClipLink pfd item u).title =
        desc ++ ": " ++ (item.title.bind TitleObj.fi).getD "") := by
  refine ⟨?_, ?_, ?_⟩
  · rcases hpt with hpt | hpt <;>
      simp only [parseSearchResults, parseSearchResultsCache,
        parseSearchItems, itemLink, huri, hcard, hpt, Bool.or_eq_true,
        beq_iff_eq, String.reduceEq, or_self, or_false, false_or, or_true,
        ite_true, ite_false, reduceCtorEq, if_true, if_false]
  · intro d hd
    simp only [programClipLink, mkStreamLink, hdesc, hd, hdne, ne_eq,
      not_false_eq_true, if_true, ite_not]
    exact ⟨trivial, trivial⟩
  · intro hd hlen
    have hne2 : desc ++ ": " ++ (item.title.bind TitleObj.fi).getD "" ≠ "" := by
      intro he
      have hlen2 := congrArg String.length he
      rw [String.length_append, String.length_append] at hlen2
      have h2 : (": " : String).length = 2 := rfl
      have h0 : ("" : String).length = 0 := rfl
      omega
    simp only [programClipLink, mkStreamLink, hdesc, hd, hdne, ne_eq,
      not_false_eq_true, if_true, hlen, hne2, ite_false, if_false]

/-- Fixture: a program card with title "T" and a date-like description. -/
def itemA : Item :=
  { type := some "card",
    pointer := some { uri := some "uA", type := some "program" },
    transmissions := [], title := some { fi := some "T" }, image := none,
    duration := none, durationFallback := none,
    description := some "12.3.2021", id := none }

theorem description_date_heuristic_witness :
    (programClipLink pfd7 itemA "uA").published = some 20210312 ∧
    (programClipLink pfd7 itemA "uA").title =
      (if (itemA.title.bind TitleObj.fi).getD "" = "" then "???"
       else (itemA.title.bind TitleObj.fi).getD "") :=
  (description_date_heuristic pfd7 itemA "uA" "12.3.2021" (by decide) rfl
    (Or.inl rfl) rfl (by decide)).2.1 20210312 (by decide)

end Areena

namespace Areena

theorem itemCacheEntry_inv (item : Item) (e : String × Item)
    (h : itemCacheEntry item = some e) :
    isMappableProgClip item = true ∧ item.id = some e.1 ∧ e.1 ≠ "" ∧
      e.2 = item := by
  unfold itemCacheEntry at h
  by_cases hm : isMappableProgClip item = true
  · rw [if_pos hm] at h
    cases hid : item.id with
    | none =>
      simp only [hid] at h
      exact Option.noConfusion h
    | some pid =>
      simp only [hid] at h
      by_cases hpid : pid ≠ ""
      · rw [if_pos hpid] at h
        injection h with h2
        subst h2
        exact ⟨hm, rfl, hpid, rfl⟩
      · rw [if_neg hpid] at h
        exact Option.noConfusion h
  · rw [if_neg hm] at h
    exact Option.noConfusion h

theorem itemCacheEntry_eq_some (item : Item) (k : String)
    (hm : isMappableProgClip item = true) (hid : item.id = some k)
    (hk : k ≠ "") : itemCacheEntry item = some (k, item) := by
  simp [itemCacheEntry, hm, hid, hk]

theorem lookup_cons_isSome (e : String × Item) (c : Cache) (k : String)
    (h : (c.lookup k).isSome) : ((e :: c).lookup k).isSome := by
  rcases e with ⟨a, b⟩
  simp only [List.lookup]
  split <;> simp [h]

theorem lookup_cons_of_ne (a k : String) (b : Item) (c : Cache)
    (h : ¬ k = a) : (((a, b) :: c).lookup k) = c.lookup k := by
  simp only [List.lookup]
  have hb : (k == a) = false := beq_eq_false_iff_ne.mpr h
  simp [hb]

theorem parseSearchItems_snd (pfd : DateParse) (item : Item)
    (rest : List Item) (c : Cache) :
    (parseSearchItems pfd (item :: rest) c).2 =
      (parseSearchItems pfd rest
        (match itemCacheEntry item with
         | some e => e :: c
         | none => c)).2 := by
  simp only [parseSearchItems]
  cases itemLink pfd item <;> simp

theorem parseSearchItems_cache_mono (pfd : DateParse) :
    ∀ (items : List Item) (c : Cache) (k : String),
      (c.lookup k).isSome →
      (((parseSearchItems pfd items c).2).lookup k).isSome := by
  intro items
  induction items with
  | nil => intro c k h; exact h
  | cons item rest ih =>
    intro c k h
    rw [parseSearchItems_snd]
    cases he : itemCacheEntry item with
    | none => exact ih c k h
    | some e => exact ih (e :: c) k (lookup_cons_isSome e c k h)

theorem parseSearchItems_cache_frame (pfd : DateParse) :
    ∀ (items : List Item) (c : Cache) (k : String),
      ((parseSearchItems pfd items c).2).lookup k ≠ c.lookup k →
      ∃ item ∈ items, ∃ e, itemCacheEntry item = some e ∧ e.1 = k := by
  intro items
  induction items with
  | nil => intro c k h; exact absurd rfl h
  | cons item rest ih =>
    intro c k h
    rw [parseSearchItems_snd] at h
    cases he : itemCacheEntry item with
    | none =>
      rw [he] at h
      rcases ih c k h with ⟨x, hx, e, hex, hek⟩
      exact ⟨x, List.mem_cons_of_mem _ hx, e, hex, hek⟩
    | some e =>
      rw [he] at h
      by_cases hk :
          ((parseSearchItems pfd rest (e :: c)).2).lookup k ≠ (e :: c).lookup k
      · rcases ih (e :: c) k hk with ⟨x, hx, e2, hex, hek⟩
        exact ⟨x, List.mem_cons_of_mem _ hx, e2, hex, hek⟩
      · push_neg at hk
        have hne : ((e :: c).lookup k) ≠ c.lookup k := by
          rw [← hk]; exact h
        by_cases hke : k = e.1
        · exact ⟨item, List.mem_cons_self _ _, e, he, hke.symm⟩
        · exact absurd (lookup_cons_of_ne e.1 k e.2 c hke) hne

theorem parseSearchItems_cache_inserts (pfd : DateParse) :
    ∀ (items : List Item) (c : Cache) (item : Item), item ∈ items →
      ∀ e, itemCacheEntry item = some e →
      (((parseSearchItems pfd items c).2).lookup e.1).isSome := by
  intro items
  induction items with
  | nil => intro c item h; exact absurd h (List.not_mem_nil _)
  | cons x rest ih =>
    intro c item hmem e he
    rw [parseSearchItems_snd]
    rcases List.mem_cons.mp hmem with heq | hmem2
    · subst heq
      rw [he]
      apply parseSearchItems_cache_mono
      rcases e with ⟨a, b⟩
      simp [List.lookup]
    · cases h2 : itemCacheEntry x with
      | none => exact ih c item hmem2 e he
      | some e2 => exact ih (e2 :: c) item hmem2 e he

theorem parseSearchItems_cache_unchanged (pfd : DateParse) :
    ∀ (items : List Item) (c : Cache),
      (∀ item ∈ items, itemCacheEntry item = none) →
      (parseSearchItems pfd items c).2 = c := by
  intro items
  induction items with
  | nil => intro c _; rfl
  | cons x rest ih =>
    intro c h
    rw [parseSearchItems_snd, h x (List.mem_cons_self _ _)]
    exact ih c (fun y hy => h y (List.mem_cons_of_mem _ hy))

theorem parseSearchResultsCache_snd (pfd : DateParse) (resp : SearchResponse)
    (pag : Bool) (c : Cache) :
    (parseSearchResultsCache pfd resp pag c).2 =
      (parseSearchItems pfd resp.data c).2 := by
  unfold parseSearchResultsCache
  cases pag with
  | false => rfl
  | true =>
    cases resp.meta with
    | none => rfl
    | some m =>
      by_cases hg : m.offset.getD 0 + m.limit.getD DEFAULT_PAGE_SIZE <
          m.count.getD 0 <;>
        simp [hg]

/-- C10: the result mapper touches the cache only by inserting mapped
program/clip items under their non-empty id: (1) every key present before is
present after; (2) any key whose binding changed is the non-empty id of a
mapped program/clip item of the input; (3) every mapped program/clip item
with a non-empty id is present afterwards; (4) when no item qualifies for
insertion the cache object is returned unchanged. -/
theorem cache_insert_only_mapped (pfd : DateParse) (resp : SearchResponse)
    (pag : Bool) (c : Cache) :
    (∀ k : String, (c.lookup k).isSome →
      (((parseSearchResultsCache pfd resp pag c).2).lookup k).isSome) ∧
    (∀ k : String,
      ((parseSearchResultsCache pfd resp pag c).2).lookup k ≠ c.lookup k →
      ∃ item ∈ resp.data, isMappableProgClip item = true ∧
        item.id = some k ∧ k ≠ "") ∧
    (∀ item ∈ resp.data, isMappableProgClip item = true →
      ∀ k : String, item.id = some k → k ≠ "" →
      (((parseSearchResultsCache pfd resp pag c).2).lookup k).isSome) ∧
    ((∀ item ∈ resp.data, itemCacheEntry item = none) →
      (parseSearchResultsCache pfd resp pag c).2 = c) := by
  simp only [parseSearchResultsCache_snd]
  refine ⟨?_, ?_, ?_, ?_⟩
  · intro k h
    exact parseSearchItems_cache_mono pfd resp.data c k h
  · intro k h
    rcases parseSearchItems_cache_frame pfd resp.data c k h with
      ⟨item, hmem, e, he, hek⟩
    rcases itemCacheEntry_inv item e he with ⟨hm, hid, hk, _⟩
    exact ⟨item, hmem, hm, hek ▸ hid, hek ▸ hk⟩
  · intro item hmem hm k hid hk
    exact parseSearchItems_cache_inserts pfd resp.data c item hmem (k, item)
      (itemCacheEntry_eq_some item k hm hid hk)
  · intro h
    exact parseSearchItems_cache_unchanged pfd resp.data c h

theorem cache_insert_only_mapped_witness :
    (((parseSearchResultsCache pfdNone
        { data := [itemProg, itemSer], meta := none } true []).2).lookup
      "p1").isSome :=
  (cache_insert_only_mapped pfdNone
      { data := [itemProg, itemSer], meta := none } true []).2.2.1
    itemProg (by decide) (by decide) "p1" rfl (by decide)

end Areena
